import Mathlib

/-!
Verification development for the IndiView news-aggregation backend
(src/server/index.js).  The pipeline's pure core — vector math, the
online clusterer, the labeler's fallback logic, the stats computation,
and the store's transactional operations — is shallowly embedded below.
Machine floating-point numbers are modelled by real numbers; ISO-8601
date strings, which the code only ever compares and subtracts, are
modelled by integer timestamps (milliseconds); SQL tables are modelled
as lists of rows in rowid order.
-/

/-! ## Math utilities (src/server/index.js lines 166-186) -/

/-- JS `x || 1` for a number `x` that is not NaN: `x` when nonzero, else `1`. -/
noncomputable def jsOr1 (x : ℝ) : ℝ :=
  if x = 0 then 1 else x

/-- The dot-product loop of `cosineSimilarity` (runs over equal-length vectors). -/
def dotList (a b : List ℝ) : ℝ :=
  (List.zipWith (fun x y => x * y) a b).sum

/-- The magnitude accumulators of `cosineSimilarity` / `normalizeVector`:
sum of squares of the entries. -/
def sumSq (v : List ℝ) : ℝ :=
  (v.map (fun x => x * x)).sum

/-- `cosineSimilarity(vecA, vecB)`: returns 0 when either argument is
null/undefined or the lengths differ; otherwise
`dot / ((sqrt magA * sqrt magB) || 1)`. -/
noncomputable def cosineSimilarity (a b : Option (List ℝ)) : ℝ :=
  match a, b with
  | some va, some vb =>
    if va.length = vb.length then
      dotList va vb / jsOr1 (Real.sqrt (sumSq va) * Real.sqrt (sumSq vb))
    else 0
  | _, _ => 0

/-- `weightedVectorAdd(vecA, vecB, wA, wB)` on present vectors of equal
length: `vecA.map((val, i) => val*wA + vecB[i]*wB)`.  (The null guards of
the source are not exercised at the modelled call sites, where both
arguments are always present.) -/
def weightedVectorAdd (a b : List ℝ) (wa wb : ℝ) : List ℝ :=
  List.zipWith (fun x y => x * wa + y * wb) a b

/-- `normalizeVector(vec)`: divide each entry by `sqrt(Σ v_i²) || 1`. -/
noncomputable def normalizeVector (v : List ℝ) : List ℝ :=
  v.map (fun x => x / jsOr1 (Real.sqrt (sumSq v)))

/-! ## Data model

An article as seen by the in-memory pipeline (a loosely-typed JS object:
SQL rows spread into it keep `pub_date` but have no `pubDate` field, so
`pubDate` is `none` for row-derived articles and the clusterer then uses
the current time).  JSON values model what `JSON.parse` can return. -/

inductive Json where
  | null : Json
  | bool (b : Bool) : Json
  | num (q : ℚ) : Json
  | str (s : String) : Json
  | arr (elems : List Json) : Json
  | obj (fields : List (String × Json)) : Json

structure Article where
  id : String
  headline : String
  summary : Option String
  pubDate : Option ℤ
  bias_rating : Option String
  image_url : Option String
  embedding : Option (List ℝ)

instance : Inhabited Article :=
  ⟨⟨"", "", none, none, none, none, none⟩⟩

/-- A micro-cluster as built by `clusterArticles`. -/
structure MicroCluster where
  centroid : List ℝ
  articles : List Article
  latestTime : ℤ

/-- The three label fields a labeled cluster carries
(`{...data, articles}` in the source; a field is `none` when the spread
object has no such property). -/
structure Label where
  headline : Option Json
  summary : Option Json
  category : Option Json

structure LabeledCluster where
  label : Label
  articles : List Article

/-- Cluster stats as stored (`{totalSources, biasDistribution, blindspot}`). -/
structure Stats where
  totalSources : ℕ
  left : ℤ
  center : ℤ
  right : ℤ
  blindspot : String

/-- The `embedding` TEXT column of `news_articles`: SQL NULL, a JSON text
that fails to parse, or a JSON text that parses to a vector. -/
inductive EmbStore where
  | absent : EmbStore
  | malformed : EmbStore
  | valid (v : List ℝ) : EmbStore

/-- One row of `news_articles` (timestamps: ISO strings modelled as ℤ). -/
structure ArticleRow where
  id : String
  source_id : Option String
  source_name : Option String
  bias_rating : Option String
  factuality : Option String
  headline : String
  url : Option String
  pub_date : ℤ
  fetched_at : ℤ
  summary : Option String
  image_url : Option String
  cluster_id : Option String
  embedding : EmbStore
  entities : Option String

/-- One row of `news_clusters`. -/
structure ClusterRow where
  id : String
  headline : Option Json
  summary : Option Json
  category : Option Json
  main_image_url : Option String
  created_at : ℤ
  stats : Stats

/-- The database: both tables, rows in rowid (insertion) order. -/
structure DB where
  clusters : List ClusterRow
  articles : List ArticleRow

/-- The observable outcome of one `ai.models.generateContent` call
followed by `JSON.parse(response.text || '{}')`: a thrown transport
error, a thrown parse error, or a parsed JSON value. -/
inductive CallOutcome where
  | transport : CallOutcome
  | parseFail : CallOutcome
  | parsed (j : Json) : CallOutcome

/-! ## Clusterer (src/server/index.js lines 280-344) -/

def MAX_TIME_DIFF_MS : ℕ := 172800000

noncomputable def CLUSTERING_THRESHOLD : ℝ := 0.55

noncomputable def DUPLICATE_THRESHOLD : ℝ := 0.9

/-- The duplicate check of the inner loop: some member of the cluster has
an equal lowercased-trimmed headline, or cosine similarity to the incoming
vector at least `DUPLICATE_THRESHOLD`. -/
noncomputable def dupMatch (a : Article) (vec : List ℝ) (c : MicroCluster) : Bool :=
  c.articles.any (fun m =>
    (m.headline.toLower.trim == a.headline.toLower.trim) ||
    decide (DUPLICATE_THRESHOLD ≤ cosineSimilarity (some vec) m.embedding))

/-- Result of scanning the cluster list for one article: either the scan
hit the duplicate branch (`push` + `break`), yielding the updated cluster
list, or it ran to the end with the accumulated `maxSim`/`bestIdx`. -/
inductive ScanResult where
  | dup (clusters : List MicroCluster) : ScanResult
  | scanned (maxSim : ℝ) (bestIdx : Option ℕ) : ScanResult

/-- Re-attach a cluster the loop already passed (only the duplicate branch
returns a cluster list). -/
def ScanResult.consCluster (c : MicroCluster) : ScanResult → ScanResult
  | .dup l => .dup (c :: l)
  | .scanned ms bi => .scanned ms bi

/-- The `for (let i = 0; i < microClusters.length; i++)` loop of
`clusterArticles`: time check, duplicate check, semantic centroid check. -/
noncomputable def scanLoop (t : ℤ) (vec : List ℝ) (a : Article) :
    List MicroCluster → ℝ → Option ℕ → ℕ → ScanResult
  | [], maxSim, bestIdx, _ => .scanned maxSim bestIdx
  | c :: rest, maxSim, bestIdx, i =>
    if MAX_TIME_DIFF_MS < (t - c.latestTime).natAbs then
      (scanLoop t vec a rest maxSim bestIdx (i + 1)).consCluster c
    else if dupMatch a vec c then
      .dup ({ c with articles := c.articles ++ [a] } :: rest)
    else
      let s := cosineSimilarity (some vec) (some c.centroid)
      if maxSim < s then
        (scanLoop t vec a rest s (some i) (i + 1)).consCluster c
      else
        (scanLoop t vec a rest maxSim bestIdx (i + 1)).consCluster c

/-- Replace the element at index `i` (the `microClusters[bestIdx]` update). -/
def modifyIdx (f : MicroCluster → MicroCluster) : ℕ → List MicroCluster → List MicroCluster
  | _, [] => []
  | 0, c :: rest => f c :: rest
  | n + 1, c :: rest => c :: modifyIdx f n rest

/-- Join an article to the best cluster: push the member, re-weight the
centroid `0.8/0.2`, and raise `latestTime` when the article is newer. -/
noncomputable def joinBest (a : Article) (vec : List ℝ) (t : ℤ) (c : MicroCluster) :
    MicroCluster :=
  { centroid := normalizeVector (weightedVectorAdd c.centroid vec 0.8 0.2)
    articles := c.articles ++ [a]
    latestTime := if c.latestTime < t then t else c.latestTime }

/-- The body of `clusterArticles`' outer loop: process one article against
the current micro-cluster list. -/
noncomputable def processArticle (now : ℤ) (cs : List MicroCluster) (a : Article) :
    List MicroCluster :=
  let vec := a.embedding.getD []
  let t := (a.pubDate).getD now
  match scanLoop t vec a cs (-1) none 0 with
  | .dup cs' => cs'
  | .scanned maxSim bestIdx =>
    if CLUSTERING_THRESHOLD ≤ maxSim then
      match bestIdx with
      | some i => modifyIdx (joinBest a vec t) i cs
      | none => cs ++ [⟨vec, [a], t⟩]
    else cs ++ [⟨vec, [a], t⟩]

/-- `clusterArticles(articles)`: filter to articles that have an
embedding, then fold the per-article loop over an initially empty
cluster list.  `now` models `Date.now()`, the time used for an article
without a `pubDate` field. -/
noncomputable def clusterArticles (now : ℤ) (articles : List Article) :
    List MicroCluster :=
  (articles.filter (fun a => a.embedding.isSome)).foldl (processArticle now) []

/-! ## Labeler (src/server/index.js lines 346-414)

The prompt construction (keyword counting, sample headlines) does not
influence the returned label, which depends only on the outcome of the
external call; the call-plus-parse outcome is abstracted as a
`CallOutcome` oracle. -/

/-- JS property access `data.k` after `{...data}`: the last binding of key
`k` when `data` is an object (JSON.parse keeps the last duplicate key),
`undefined` (= `none`) otherwise — spreading a string/array/primitive
never creates a `headline`/`summary`/`category` property. -/
def jsGet (j : Json) (k : String) : Option Json :=
  match j with
  | .obj fields => fields.foldl (fun acc p => if p.1 == k then some p.2 else acc) none
  | _ => none

/-- JSON value of a nullable string column (SQL NULL becomes JSON null). -/
def jsonOfOptStr (s : Option String) : Json :=
  match s with
  | some v => .str v
  | none => .null

/-- The catch-branch fallback label of `processCluster`:
first member's headline and summary, category `"General"`. -/
def fallbackLabel (first : Article) : Label :=
  { headline := some (.str first.headline)
    summary := some (jsonOfOptStr first.summary)
    category := some (.str "General") }

/-- `processCluster(cluster)`: `null` for an empty cluster; otherwise the
spread parsed response on success and the fallback label when the call or
the parse throws. -/
def processCluster (c : MicroCluster) (outcome : CallOutcome) : Option LabeledCluster :=
  match c.articles with
  | [] => none
  | first :: _ =>
    some (match outcome with
    | .transport => ⟨fallbackLabel first, c.articles⟩
    | .parseFail => ⟨fallbackLabel first, c.articles⟩
    | .parsed j =>
      ⟨{ headline := jsGet j "headline"
         summary := jsGet j "summary"
         category := jsGet j "category" }, c.articles⟩)

/-- Pair each element with its index. -/
def withIdx {α : Type} : List α → ℕ → List (ℕ × α)
  | [], _ => []
  | x :: xs, i => (i, x) :: withIdx xs (i + 1)

/-- `generateLabels(clusters)`: each cluster is processed once (batching
in groups of five only parallelizes; result order is the input order and
`null` results are filtered out).  The oracle gives the outcome of the
external call for the cluster at each position. -/
def generateLabels (oracle : ℕ → CallOutcome) (clusters : List MicroCluster) :
    List LabeledCluster :=
  (withIdx clusters 0).filterMap (fun p => processCluster p.2 (oracle p.1))

/-- The labeler call site for one cluster: the source makes exactly one
`generateContent` request (`oracle 0`); there is no retry loop. -/
def processClusterCall (c : MicroCluster) (oracle : ℕ → CallOutcome) :
    Option LabeledCluster :=
  processCluster c (oracle 0)

/-- Modelled from the spec (§7 error table), not from the source, for
comparison: "bounded retry with exponential backoff (base 500ms, factor
2, up to 3 tries)" — take the first non-transport outcome among the
first three attempts (backoff delays have no effect on the returned
label and are not modelled). -/
def specRetryOutcome (oracle : ℕ → CallOutcome) : CallOutcome :=
  match oracle 0 with
  | .transport =>
    match oracle 1 with
    | .transport => oracle 2
    | o => o
  | o => o

/-! ## StatsComputer (src/server/index.js lines 575-600 and 475-493) -/

/-- JS `String.prototype.includes`. -/
def strIncludes (s pat : String) : Bool :=
  decide (pat.toList <:+: s.toList)

/-- `a.bias_rating && a.bias_rating.includes(pat)` as a boolean. -/
def biasHas (a : Article) (pat : String) : Bool :=
  match a.bias_rating with
  | some b => strIncludes b pat
  | none => false

/-- The `forEach` counting loop: `left` if the bias contains "Left", else
`right` if it contains "Right", else `center`. -/
def countsOf (arts : List Article) : ℕ × ℕ × ℕ :=
  arts.foldl (fun acc a =>
    if biasHas a "Left" then (acc.1 + 1, acc.2.1, acc.2.2)
    else if biasHas a "Right" then (acc.1, acc.2.1 + 1, acc.2.2)
    else (acc.1, acc.2.1, acc.2.2 + 1)) (0, 0, 0)

/-- JS `Math.round` (half goes toward +∞). -/
def jsRound (q : ℚ) : ℤ :=
  ⌊q + 1 / 2⌋

/-- The two sequential blindspot assignments. -/
def blindspotOf (leftPct rightPct : ℤ) : String :=
  let b1 := if rightPct < 15 ∧ 50 < leftPct then "Right" else "None"
  if leftPct < 15 ∧ 50 < rightPct then "Left" else b1

/-- The stats block built for each committed cluster. -/
def statsOf (arts : List Article) : Stats :=
  let total := arts.length
  let counts := countsOf arts
  let leftPct := jsRound (((counts.1 : ℚ) / (total : ℚ)) * 100)
  let rightPct := jsRound (((counts.2.1 : ℚ) / (total : ℚ)) * 100)
  { totalSources := total
    left := leftPct
    center := 100 - leftPct - rightPct
    right := rightPct
    blindspot := blindspotOf leftPct rightPct }

/-- `c.articles.find(a => a.image_url)?.image_url`: the image of the first
member with a truthy (non-null, non-empty) `image_url`. -/
def bestImageOf (arts : List Article) : Option String :=
  match arts.find? (fun a =>
    match a.image_url with
    | some s => !(s == "")
    | none => false) with
  | some a => a.image_url
  | none => none

/-! ## Store operations -/

/-- The pipeline's initial load (src/server/index.js lines 526-533):
`SELECT * FROM news_articles WHERE cluster_id IS NULL AND pub_date > ?
LIMIT 50` with `? = now − 72h`.  The statement has no ORDER BY, so rows
come back in table (rowid) order. -/
def selectUnclustered (now : ℤ) (rows : List ArticleRow) : List ArticleRow :=
  (rows.filter (fun r => r.cluster_id == none && decide (now - 259200000 < r.pub_date))).take 50

/-- `INSERT ... ON CONFLICT(id) DO UPDATE SET fetched_at =
excluded.fetched_at, headline = excluded.headline, image_url =
COALESCE(image_url, excluded.image_url)` (src/server/index.js lines
641-659) for one incoming row.  In the DO UPDATE clause the unqualified
`image_url` is the stored row's current value. -/
def upsertArticle (tbl : List ArticleRow) (a : ArticleRow) : List ArticleRow :=
  if tbl.any (fun r => r.id == a.id) then
    tbl.map (fun r =>
      if r.id == a.id then
        { r with
          fetched_at := a.fetched_at
          headline := a.headline
          image_url := match r.image_url with
            | some u => some u
            | none => a.image_url }
      else r)
  else tbl ++ [a]

/-- The refiner's row decode (src/server/index.js lines 430-434):
`JSON.parse` the `embedding` column (a failed parse maps the row to
`null`) and keep only rows whose parsed embedding is a non-empty array.
The resulting objects have `pub_date` but no `pubDate` field, so the
article's `pubDate` is `none`. -/
def parseRowEmb (r : ArticleRow) : Option Article :=
  match r.embedding with
  | .valid v =>
    if 0 < v.length then
      some { id := r.id
             headline := r.headline
             summary := r.summary
             pubDate := none
             bias_rating := r.bias_rating
             image_url := r.image_url
             embedding := some v }
    else none
  | .malformed => none
  | .absent => none

/-- The "Safe Transactional Swap" of `refineClusters` (src/server/index.js
lines 464-510): delete the old cluster row, then for each labeled
sub-cluster insert a fresh cluster row (with stats and best image) and
point its member articles at the new id.  `newIdGen i` models the
generated id `cluster-split-...` of the i-th sub-cluster. -/
def splitStep (newIdGen : ℕ → String) (now : ℤ) (d : DB) (p : ℕ × LabeledCluster) : DB :=
  let newId := newIdGen p.1
  let c := p.2
  let row : ClusterRow :=
    { id := newId
      headline := c.label.headline
      summary := c.label.summary
      category := c.label.category
      main_image_url := bestImageOf c.articles
      created_at := now
      stats := statsOf c.articles }
  let memberIds := c.articles.map (fun a => a.id)
  { clusters := d.clusters ++ [row]
    articles := d.articles.map (fun a =>
      if memberIds.contains a.id then { a with cluster_id := some newId } else a) }

def splitTransaction (newIdGen : ℕ → String) (now : ℤ) (db : DB) (oldId : String)
    (subs : List LabeledCluster) : DB :=
  let afterDelete : DB :=
    { db with clusters := db.clusters.filter (fun c => !(c.id == oldId)) }
  (withIdx subs 0).foldl (splitStep newIdGen now) afterDelete

/-- The net article reassignment a split performs: the id of the last
indexed sub-cluster containing the article id, if any (later `UPDATE`s
overwrite earlier ones). -/
def lastAssign (newIdGen : ℕ → String) (aid : String) :
    List (ℕ × LabeledCluster) → Option String
  | [] => none
  | p :: rest =>
    match lastAssign newIdGen aid rest with
    | some nid => some nid
    | none =>
      if (p.2.articles.map (fun a => a.id)).contains aid then some (newIdGen p.1)
      else none

noncomputable def COHERENCE_THRESHOLD : ℝ := 0.6

/-- One iteration of the refiner's cluster loop (src/server/index.js
lines 425-513): load the cluster's members, decode embeddings, bail out
below four usable members, compute the normalized elementwise-sum
centroid and the average member-to-centroid cosine, and when the average
is below `COHERENCE_THRESHOLD` re-cluster the decoded members and — if
that yields more than one sub-cluster — label them and run the split
transaction. -/
noncomputable def refineOne (newIdGen : ℕ → String) (oracle : ℕ → CallOutcome)
    (now : ℤ) (db : DB) (cl : ClusterRow) : DB :=
  let articlesRaw := db.articles.filter (fun a => a.cluster_id == some cl.id)
  if articlesRaw.length < 4 then db
  else
    let articles := articlesRaw.filterMap parseRowEmb
    if articles.length < 4 then db
    else
      let dim := (articles.headI.embedding.getD []).length
      let centroid := normalizeVector (articles.foldl
        (fun c a => weightedVectorAdd c (a.embedding.getD []) 1 1)
        (List.replicate dim 0))
      let avgSim := (articles.map
        (fun a => cosineSimilarity a.embedding (some centroid))).sum / articles.length
      if avgSim < COHERENCE_THRESHOLD then
        let newMicro := clusterArticles now articles
        if 1 < newMicro.length then
          splitTransaction newIdGen now db cl.id (generateLabels oracle newMicro)
        else db
      else db

/-- `refineClusters` (src/server/index.js lines 417-517): select clusters
created in the last 24 hours (from the starting snapshot) and fold the
per-cluster refinement over the database. -/
noncomputable def refineClusters (newIdGen : ℕ → String) (oracle : ℕ → CallOutcome)
    (now : ℤ) (db : DB) : DB :=
  (db.clusters.filter (fun c => decide (now - 86400000 < c.created_at))).foldl
    (refineOne newIdGen oracle now) db

/-! ## Concrete data for witnesses and counterexamples -/

/-- Spec scenario 4: ten members, seven "Left", one "Center", two "Center Right". -/
def biasArt (b : String) : Article :=
  { id := "s", headline := "h", summary := none, pubDate := none,
    bias_rating := some b, image_url := none, embedding := none }

def arts10 : List Article :=
  [biasArt "Left", biasArt "Left", biasArt "Left", biasArt "Left", biasArt "Left",
   biasArt "Left", biasArt "Left", biasArt "Center", biasArt "Center Right",
   biasArt "Center Right"]

/-- Concrete rows for the C9 witness: same id, the stored row has a
non-null image and the incoming one a null image. -/
def rowStored : ArticleRow :=
  { id := "u1", source_id := some "src", source_name := some "Src",
    bias_rating := some "Center", factuality := some "High", headline := "old headline",
    url := some "http-u1", pub_date := 10, fetched_at := 20, summary := some "olds",
    image_url := some "img-old", cluster_id := some "k1", embedding := .absent,
    entities := none }

def rowIncoming : ArticleRow :=
  { id := "u1", source_id := none, source_name := none,
    bias_rating := none, factuality := none, headline := "new headline",
    url := some "http-u1", pub_date := 11, fetched_at := 99, summary := none,
    image_url := none, cluster_id := none, embedding := .absent,
    entities := none }

/-- Concrete data for the C8 witness: one old cluster, one incoming article
with the identical headline but 49 hours newer. -/
def artOld : Article :=
  { id := "w1", headline := "same headline", summary := none, pubDate := some 0,
    bias_rating := none, image_url := none, embedding := some [1, 0] }

def artLate : Article :=
  { id := "w2", headline := "same headline", summary := none,
    pubDate := some 176400000, bias_rating := none, image_url := none,
    embedding := some [1, 0] }

def clusterOld : MicroCluster := ⟨[1, 0], [artOld], 0⟩

/-- An in-window article with the same headline as `clusterOld`'s member. -/
def artNear : Article :=
  { id := "w3", headline := "same headline", summary := none,
    pubDate := some 1000, bias_rating := none, image_url := none,
    embedding := some [1, 0] }

/-- Two articles with identical headlines, the second 1000 ms newer. -/
def artDupA : Article :=
  { id := "d1", headline := "bill passes", summary := none, pubDate := some 0,
    bias_rating := none, image_url := none, embedding := some [1, 0] }

def artDupB : Article :=
  { id := "d2", headline := "bill passes", summary := none, pubDate := some 1000,
    bias_rating := none, image_url := none, embedding := some [1, 0] }

/-- Two unclustered recent rows stored newest-first. -/
def rowU (i : String) (pd : ℤ) : ArticleRow :=
  { id := i, source_id := none, source_name := none, bias_rating := none,
    factuality := none, headline := "h", url := none, pub_date := pd,
    fetched_at := 0, summary := none, image_url := none, cluster_id := none,
    embedding := .absent, entities := none }

def rowsC3 : List ArticleRow := [rowU "late" 100, rowU "early" 50]

/-- A one-member cluster for the labeler claims. -/
def artC5 : Article :=
  { id := "c5", headline := "H", summary := some "S", pubDate := none,
    bias_rating := none, image_url := none, embedding := none }

def mcC5 : MicroCluster := ⟨[], [artC5], 0⟩

def goodJson : Json :=
  .obj [("headline", .str "G"), ("summary", .str "g"), ("category", .str "Politics")]

/-- An oracle whose first attempt is a transport failure and whose later
attempts would succeed with a well-formed label. -/
def oracleC6 : ℕ → CallOutcome :=
  fun n => if n = 0 then .transport else .parsed goodJson

def oracleAllFail : ℕ → CallOutcome := fun _ => .transport

/-- Concrete split data: the database holds no cluster at all (the old
cluster is gone) and one article still pointing at a vanished cluster. -/
def idGen : ℕ → String := fun n => "split-" ++ toString n

def artX : Article :=
  { id := "x", headline := "hx", summary := none, pubDate := none,
    bias_rating := none, image_url := none, embedding := none }

def rowX : ArticleRow :=
  { id := "x", source_id := none, source_name := none, bias_rating := none,
    factuality := none, headline := "hx", url := none, pub_date := 0,
    fetched_at := 0, summary := none, image_url := none,
    cluster_id := some "gone", embedding := .absent, entities := none }

def dbC4 : DB := ⟨[], [rowX]⟩

def subC4 : LabeledCluster := ⟨⟨none, none, none⟩, [artX]⟩

/-- An incoherent cluster: four members with mutually cancelling unit
embeddings, plus a fifth member whose stored embedding text does not
parse. -/
def mkRowC1 (i hl : String) (e : EmbStore) : ArticleRow :=
  { id := i, source_id := none, source_name := none, bias_rating := none,
    factuality := none, headline := hl, url := none, pub_date := 95000000,
    fetched_at := 95000000, summary := none, image_url := none,
    cluster_id := some "old", embedding := e, entities := none }

def rowsC1 : List ArticleRow :=
  [mkRowC1 "a1" "h1" (.valid [1, 0]), mkRowC1 "a2" "h2" (.valid [-1, 0]),
   mkRowC1 "a3" "h3" (.valid [0, 1]), mkRowC1 "a4" "h4" (.valid [0, -1]),
   mkRowC1 "a5" "h5" .malformed]

def oldCluster : ClusterRow :=
  { id := "old", headline := some (.str "Old"), summary := none, category := none,
    main_image_url := none, created_at := 90000000, stats := ⟨5, 0, 100, 0, "None"⟩ }

def dbC1 : DB := ⟨[oldCluster], rowsC1⟩

/-- The four members as decoded by the refiner (SQL rows carry no
`pubDate`, so it is `none`). -/
def artA1 : Article :=
  ⟨"a1", "h1", none, none, none, none, some [1, 0]⟩

def artA2 : Article :=
  ⟨"a2", "h2", none, none, none, none, some [-1, 0]⟩

def artA3 : Article :=
  ⟨"a3", "h3", none, none, none, none, some [0, 1]⟩

def artA4 : Article :=
  ⟨"a4", "h4", none, none, none, none, some [0, -1]⟩

/-- The four singleton micro-clusters the re-clustering produces. -/
def mc1 : MicroCluster := ⟨[1, 0], [artA1], 100000000⟩

def mc2 : MicroCluster := ⟨[-1, 0], [artA2], 100000000⟩

def mc3 : MicroCluster := ⟨[0, 1], [artA3], 100000000⟩

def mc4 : MicroCluster := ⟨[0, -1], [artA4], 100000000⟩

/-! ## Lemmas and claim theorems -/

/-! ## Helper lemmas -/

lemma jsOr1_ne_zero (x : ℝ) : jsOr1 x ≠ 0 := by
  unfold jsOr1
  by_cases h : x = 0
  · simp [h]
  · simp [h]

lemma sumSq_zero_of_zero {v : List ℝ} (h : ∀ x ∈ v, x = 0) : sumSq v = 0 := by
  unfold sumSq
  apply List.sum_eq_zero
  intro y hy
  rcases List.mem_map.mp hy with ⟨x, hx, rfl⟩
  rw [h x hx]
  ring

lemma countsOf_go (arts : List Article) :
    ∀ acc : ℕ × ℕ × ℕ,
      arts.foldl (fun acc a =>
        if biasHas a "Left" then (acc.1 + 1, acc.2.1, acc.2.2)
        else if biasHas a "Right" then (acc.1, acc.2.1 + 1, acc.2.2)
        else (acc.1, acc.2.1, acc.2.2 + 1)) acc
      = (acc.1 + arts.countP (fun a => biasHas a "Left"),
         acc.2.1 + arts.countP (fun a => !biasHas a "Left" && biasHas a "Right"),
         acc.2.2 + arts.countP (fun a => !biasHas a "Left" && !biasHas a "Right")) := by
  induction arts with
  | nil => intro acc; simp
  | cons a t ih =>
    intro acc
    by_cases hL : biasHas a "Left" = true
    · simp only [List.foldl_cons, hL, if_true, ih, List.countP_cons, hL]
      simp [hL]
      omega
    · by_cases hR : biasHas a "Right" = true
      · simp only [List.foldl_cons, hL, if_false, hR, if_true, ih, List.countP_cons]
        simp [hL, hR]
        omega
      · simp only [List.foldl_cons, ih, List.countP_cons]
        simp [hL, hR]
        omega

lemma countsOf_spec (arts : List Article) :
    countsOf arts
      = (arts.countP (fun a => biasHas a "Left"),
         arts.countP (fun a => !biasHas a "Left" && biasHas a "Right"),
         arts.countP (fun a => !biasHas a "Left" && !biasHas a "Right")) := by
  unfold countsOf
  rw [countsOf_go]
  simp

lemma countP_partition (arts : List Article) :
    arts.countP (fun a => biasHas a "Left")
      + arts.countP (fun a => !biasHas a "Left" && biasHas a "Right")
      + arts.countP (fun a => !biasHas a "Left" && !biasHas a "Right")
      = arts.length := by
  induction arts with
  | nil => simp
  | cons a t ih =>
    simp only [List.countP_cons, List.length_cons]
    by_cases hL : biasHas a "Left" = true
    · simp [hL]; omega
    · by_cases hR : biasHas a "Right" = true
      · simp [hL, hR]; omega
      · simp [hL, hR]; omega

lemma counts_total (arts : List Article) :
    (countsOf arts).1 + (countsOf arts).2.1 + (countsOf arts).2.2 = arts.length := by
  rw [countsOf_spec]
  simpa using countP_partition arts

lemma blindspot_iff (lp rp : ℤ) :
    (blindspotOf lp rp = "Right" ↔ (rp < 15 ∧ 50 < lp)) ∧
    (blindspotOf lp rp = "Left" ↔ (lp < 15 ∧ 50 < rp)) ∧
    (blindspotOf lp rp = "None" ↔ ¬(rp < 15 ∧ 50 < lp) ∧ ¬(lp < 15 ∧ 50 < rp)) := by
  show ((if lp < 15 ∧ 50 < rp then "Left" else if rp < 15 ∧ 50 < lp then "Right" else "None") = "Right" ↔ _) ∧
    ((if lp < 15 ∧ 50 < rp then "Left" else if rp < 15 ∧ 50 < lp then "Right" else "None") = "Left" ↔ _) ∧
    ((if lp < 15 ∧ 50 < rp then "Left" else if rp < 15 ∧ 50 < lp then "Right" else "None") = "None" ↔ _)
  by_cases hB : lp < 15 ∧ 50 < rp
  · have hA : ¬(rp < 15 ∧ 50 < lp) := by omega
    rw [if_pos hB]
    exact ⟨iff_of_false (by decide) hA, iff_of_true rfl hB,
      iff_of_false (by decide) (fun hc => hc.2 hB)⟩
  · rw [if_neg hB]
    by_cases hA : rp < 15 ∧ 50 < lp
    · rw [if_pos hA]
      exact ⟨iff_of_true rfl hA, iff_of_false (by decide) hB,
        iff_of_false (by decide) (fun hc => hc.1 hA)⟩
    · rw [if_neg hA]
      exact ⟨iff_of_false (by decide) hA, iff_of_false (by decide) hB,
        iff_of_true rfl ⟨hA, hB⟩⟩

/-! ## Claims -/

/-- C10: the vector math is total: `cosineSimilarity` returns 0 when either
vector is null or the lengths differ, and otherwise divides the dot product
by a divisor that is never zero (the `|| 1` guard); `normalizeVector` maps
the zero vector to itself. -/
theorem vector_math_total :
    (∀ b, cosineSimilarity none b = 0) ∧
    (∀ a, cosineSimilarity a none = 0) ∧
    (∀ va vb : List ℝ, va.length ≠ vb.length →
       cosineSimilarity (some va) (some vb) = 0) ∧
    (∀ va vb : List ℝ, va.length = vb.length →
       cosineSimilarity (some va) (some vb)
         = dotList va vb / jsOr1 (Real.sqrt (sumSq va) * Real.sqrt (sumSq vb)) ∧
       jsOr1 (Real.sqrt (sumSq va) * Real.sqrt (sumSq vb)) ≠ 0) ∧
    (∀ v : List ℝ, (∀ x ∈ v, x = 0) → normalizeVector v = v) := by
  refine ⟨fun b => by cases b <;> rfl, fun a => by cases a <;> rfl,
    fun va vb h => by simp [cosineSimilarity, h], fun va vb h => ?_, fun v h => ?_⟩
  · exact ⟨by simp [cosineSimilarity, h], jsOr1_ne_zero _⟩
  · unfold normalizeVector
    rw [sumSq_zero_of_zero h, Real.sqrt_zero]
    have h1 : jsOr1 0 = 1 := by unfold jsOr1; simp
    rw [h1]
    have : ∀ x ∈ v, x / (1 : ℝ) = x := fun x _ => div_one x
    rw [List.map_congr_left this, List.map_id']

/-- Witness for C10 at concrete inputs. -/
theorem vector_math_total_witness :
    cosineSimilarity none (some [(1 : ℝ)]) = 0 ∧
    cosineSimilarity (some [(1 : ℝ)]) (some [1, 2]) = 0 ∧
    normalizeVector [(0 : ℝ)] = [0] :=
  ⟨vector_math_total.1 _,
   vector_math_total.2.2.1 [(1 : ℝ)] [1, 2] (by simp),
   vector_math_total.2.2.2.2 [(0 : ℝ)] (fun x hx => List.mem_singleton.mp hx)⟩

/-- C7: for a nonempty member list the committed stats are: `left` counts
members whose bias contains "Left", `right` counts the remaining members
whose bias contains "Right", the counts sum to N, the percentages are
`round(100·left/N)`, `round(100·right/N)` and `100 − leftPct − rightPct`
(summing to 100), and the blindspot is "Right" iff `rightPct < 15 ∧
leftPct > 50`, "Left" iff `leftPct < 15 ∧ rightPct > 50`, else "None". -/
theorem stats_formulas (arts : List Article) (hne : arts ≠ []) :
    (statsOf arts).totalSources = arts.length ∧
    (countsOf arts).1 = arts.countP (fun a => biasHas a "Left") ∧
    (countsOf arts).2.1
      = (arts.filter (fun a => !biasHas a "Left")).countP (fun a => biasHas a "Right") ∧
    (countsOf arts).1 + (countsOf arts).2.1 + (countsOf arts).2.2 = arts.length ∧
    (statsOf arts).left
      = jsRound (100 * ((countsOf arts).1 : ℚ) / (arts.length : ℚ)) ∧
    (statsOf arts).right
      = jsRound (100 * ((countsOf arts).2.1 : ℚ) / (arts.length : ℚ)) ∧
    (statsOf arts).center = 100 - (statsOf arts).left - (statsOf arts).right ∧
    (statsOf arts).left + (statsOf arts).center + (statsOf arts).right = 100 ∧
    ((statsOf arts).blindspot = "Right"
      ↔ ((statsOf arts).right < 15 ∧ 50 < (statsOf arts).left)) ∧
    ((statsOf arts).blindspot = "Left"
      ↔ ((statsOf arts).left < 15 ∧ 50 < (statsOf arts).right)) ∧
    ((statsOf arts).blindspot = "None"
      ↔ ¬((statsOf arts).right < 15 ∧ 50 < (statsOf arts).left) ∧
        ¬((statsOf arts).left < 15 ∧ 50 < (statsOf arts).right)) := by
  have hfc : (countsOf arts).2.1
      = (arts.filter (fun a => !biasHas a "Left")).countP (fun a => biasHas a "Right") := by
    rw [countsOf_spec, List.countP_filter]
    simp [Bool.and_comm]
  have hmul : ∀ c : ℕ, ((c : ℚ) / (arts.length : ℚ)) * 100
      = 100 * (c : ℚ) / (arts.length : ℚ) := fun c => by ring
  refine ⟨rfl, by rw [countsOf_spec], hfc, counts_total arts, ?_, ?_, rfl, ?_, ?_, ?_, ?_⟩
  · show jsRound _ = _
    rw [hmul]
  · show jsRound _ = _
    rw [hmul]
  · show jsRound _ + (100 - jsRound _ - jsRound _) + jsRound _ = 100
    ring
  · exact (blindspot_iff _ _).1
  · exact (blindspot_iff _ _).2.1
  · exact (blindspot_iff _ _).2.2

/-- C9: on an id conflict, `upsertArticle` overwrites `fetched_at` and
`headline` with the incoming values, keeps a non-null stored `image_url`
(taking the incoming one only when the stored one is null), inserts no new
row, and leaves every other column of every row unchanged. -/
theorem upsert_conflict (tbl : List ArticleRow) (a r : ArticleRow)
    (hr : r ∈ tbl) (hid : r.id = a.id) :
    (upsertArticle tbl a).length = tbl.length ∧
    ({ r with
        fetched_at := a.fetched_at
        headline := a.headline
        image_url := (match r.image_url with
          | some u => some u
          | none => a.image_url) } ∈ upsertArticle tbl a) ∧
    (∀ r' ∈ tbl, r'.id ≠ a.id → r' ∈ upsertArticle tbl a) ∧
    (∀ r' ∈ upsertArticle tbl a, ∃ r0 ∈ tbl,
      (r0.id ≠ a.id ∧ r' = r0) ∨
      (r0.id = a.id ∧
       r'.fetched_at = a.fetched_at ∧ r'.headline = a.headline ∧
       (∀ u, r0.image_url = some u → r'.image_url = some u) ∧
       (r0.image_url = none → r'.image_url = a.image_url) ∧
       r'.id = r0.id ∧ r'.source_id = r0.source_id ∧
       r'.source_name = r0.source_name ∧ r'.bias_rating = r0.bias_rating ∧
       r'.factuality = r0.factuality ∧ r'.url = r0.url ∧
       r'.pub_date = r0.pub_date ∧ r'.summary = r0.summary ∧
       r'.cluster_id = r0.cluster_id ∧ r'.embedding = r0.embedding ∧
       r'.entities = r0.entities)) := by
  have hany : tbl.any (fun x => x.id == a.id) = true :=
    List.any_eq_true.mpr ⟨r, hr, by simp [hid]⟩
  unfold upsertArticle
  rw [if_pos hany]
  refine ⟨List.length_map _ _, ?_, ?_, ?_⟩
  · refine List.mem_map.mpr ⟨r, hr, ?_⟩
    rw [if_pos (by simp [hid])]
  · intro r' hr' hne
    refine List.mem_map.mpr ⟨r', hr', ?_⟩
    rw [if_neg (by simp [hne])]
  · intro r' hr'
    rcases List.mem_map.mp hr' with ⟨r0, hr0, hmap⟩
    refine ⟨r0, hr0, ?_⟩
    by_cases h0 : r0.id = a.id
    · right
      rw [if_pos (by simp [h0])] at hmap
      subst hmap
      refine ⟨h0, rfl, rfl, ?_, ?_, rfl, rfl, rfl, rfl, rfl, rfl, rfl, rfl, rfl, rfl, rfl⟩
      · intro u hu
        simp [hu]
      · intro hu
        simp [hu]
    · left
      rw [if_neg (by simp [h0])] at hmap
      exact ⟨h0, hmap.symm⟩

/-- Witness for C9: the conflict update keeps the stored image and takes the
incoming `fetched_at`/`headline`. -/
theorem upsert_conflict_witness :
    (upsertArticle [rowStored] rowIncoming).length = 1 ∧
    ({ rowStored with
        fetched_at := rowIncoming.fetched_at
        headline := rowIncoming.headline
        image_url := (match rowStored.image_url with
          | some u => some u
          | none => rowIncoming.image_url) } ∈ upsertArticle [rowStored] rowIncoming) :=
  ⟨(upsert_conflict [rowStored] rowIncoming rowStored (List.mem_singleton.mpr rfl) rfl).1,
   (upsert_conflict [rowStored] rowIncoming rowStored (List.mem_singleton.mpr rfl) rfl).2.1⟩

lemma scanLoop_all_skip (t : ℤ) (vec : List ℝ) (a : Article) :
    ∀ (cs : List MicroCluster) (ms : ℝ) (bi : Option ℕ) (i : ℕ),
      (∀ c ∈ cs, MAX_TIME_DIFF_MS < (t - c.latestTime).natAbs) →
      scanLoop t vec a cs ms bi i = .scanned ms bi := by
  intro cs
  induction cs with
  | nil => intro ms bi i _; rfl
  | cons c rest ih =>
    intro ms bi i h
    rw [scanLoop, if_pos (h c (List.mem_cons_self c rest)),
      ih ms bi (i + 1) (fun c' hc' => h c' (List.mem_cons_of_mem c hc'))]
    rfl

/-- C8: an article whose time is more than 48 hours away from every
existing cluster's `latestTime` always becomes a new singleton cluster —
regardless of headline identity, because the time check precedes the
duplicate check. -/
theorem timewindow_new_singleton (now : ℤ) (cs : List MicroCluster) (a : Article)
    (h : ∀ c ∈ cs, MAX_TIME_DIFF_MS < (a.pubDate.getD now - c.latestTime).natAbs) :
    processArticle now cs a
      = cs ++ [⟨a.embedding.getD [], [a], a.pubDate.getD now⟩] := by
  have hlt : ¬ (CLUSTERING_THRESHOLD ≤ (-1 : ℝ)) := by
    unfold CLUSTERING_THRESHOLD
    norm_num
  simp only [processArticle]
  rw [scanLoop_all_skip _ _ _ cs (-1) none 0 h]
  simp [hlt]

/-- Witness for C8: a 49-hours-later article with an identical headline
still opens a new cluster. -/
theorem timewindow_new_singleton_witness :
    processArticle 0 [clusterOld] artLate
      = [clusterOld] ++ [⟨[1, 0], [artLate], 176400000⟩] := by
  have h : ∀ c ∈ [clusterOld], MAX_TIME_DIFF_MS
      < (artLate.pubDate.getD 0 - c.latestTime).natAbs := by
    intro c hc
    rw [List.mem_singleton] at hc
    subst hc
    decide
  simpa [artLate] using timewindow_new_singleton 0 [clusterOld] artLate h

lemma scanLoop_dup (t : ℤ) (vec : List ℝ) (a : Article) (c : MicroCluster)
    (post : List MicroCluster)
    (hwin : (t - c.latestTime).natAbs ≤ MAX_TIME_DIFF_MS)
    (hdup : dupMatch a vec c = true) :
    ∀ (pre : List MicroCluster) (ms : ℝ) (bi : Option ℕ) (i : ℕ),
      (∀ c' ∈ pre, MAX_TIME_DIFF_MS < (t - c'.latestTime).natAbs ∨
        dupMatch a vec c' = false) →
      scanLoop t vec a (pre ++ c :: post) ms bi i
        = .dup (pre ++ { c with articles := c.articles ++ [a] } :: post) := by
  intro pre
  induction pre with
  | nil =>
    intro ms bi i _
    simp only [List.nil_append]
    rw [scanLoop, if_neg (not_lt.mpr hwin)]
    simp [hdup]
  | cons c' rest ih =>
    intro ms bi i hpre
    simp only [List.cons_append]
    rw [scanLoop]
    by_cases htime : MAX_TIME_DIFF_MS < (t - c'.latestTime).natAbs
    · rw [if_pos htime,
        ih ms bi (i + 1) (fun x hx => hpre x (List.mem_cons_of_mem _ hx))]
      rfl
    · have hdf : dupMatch a vec c' = false := by
        rcases hpre c' (List.mem_cons_self _ _) with h | h
        · exact absurd h htime
        · exact h
      rw [if_neg htime]
      simp only [hdf, Bool.false_eq_true, if_false]
      by_cases hms : ms < cosineSimilarity (some vec) (some c'.centroid)
      · rw [if_pos hms,
          ih _ _ (i + 1) (fun x hx => hpre x (List.mem_cons_of_mem _ hx))]
        rfl
      · rw [if_neg hms,
          ih ms bi (i + 1) (fun x hx => hpre x (List.mem_cons_of_mem _ hx))]
        rfl

/-- C2 (amended): when the first in-window cluster whose duplicate check
matches the incoming article is `c`, the article is appended to `c`'s
members and processing stops — clusters before and after `c` are
untouched, no new cluster is created, and `c`'s centroid *and*
`latestTime` are left unchanged (the source does not update `latestTime`
on a duplicate merge). -/
theorem duplicate_merge (now : ℤ) (pre post : List MicroCluster)
    (c : MicroCluster) (a : Article)
    (hpre : ∀ c' ∈ pre,
      MAX_TIME_DIFF_MS < (a.pubDate.getD now - c'.latestTime).natAbs ∨
      dupMatch a (a.embedding.getD []) c' = false)
    (hwin : (a.pubDate.getD now - c.latestTime).natAbs ≤ MAX_TIME_DIFF_MS)
    (hdup : dupMatch a (a.embedding.getD []) c = true) :
    processArticle now (pre ++ c :: post) a
      = pre ++ { c with articles := c.articles ++ [a] } :: post := by
  simp only [processArticle]
  rw [scanLoop_dup _ _ _ _ _ hwin hdup pre (-1) none 0 hpre]

/-- Witness for C2 (amended) at a concrete in-window duplicate. -/
theorem duplicate_merge_witness :
    processArticle 0 ([] ++ clusterOld :: []) artNear
      = [] ++ { clusterOld with articles := clusterOld.articles ++ [artNear] } :: [] := by
  refine duplicate_merge 0 [] [] clusterOld artNear (by simp) (by decide) ?_
  simp [dupMatch, clusterOld, artOld, artNear]

/-- Counterexample to C2 as stated: the second article is absorbed as a
duplicate and is newer, yet the cluster's `latestTime` stays at the first
article's time (it is *not* updated to the newer time). -/
theorem duplicate_merge_counterexample :
    (clusterArticles 0 [artDupA, artDupB]).map (fun c => c.articles.length) = [2] ∧
    artDupB.pubDate = some 1000 ∧ ((0 : ℤ) < 1000) ∧
    (clusterArticles 0 [artDupA, artDupB]).map (fun c => c.latestTime) = [0] ∧
    (clusterArticles 0 [artDupA, artDupB]).map (fun c => c.latestTime) ≠ [1000] := by
  have hlt : ¬ (CLUSTERING_THRESHOLD ≤ (-1 : ℝ)) := by
    unfold CLUSTERING_THRESHOLD
    norm_num
  have h1 : processArticle 0 [] artDupA = [⟨[(1 : ℝ), 0], [artDupA], 0⟩] := by
    simp [processArticle, scanLoop, hlt, artDupA]
  have h2 : processArticle 0 [⟨[(1 : ℝ), 0], [artDupA], 0⟩] artDupB
      = [⟨[(1 : ℝ), 0], [artDupA, artDupB], 0⟩] := by
    simp [processArticle, scanLoop, dupMatch, artDupA, artDupB, MAX_TIME_DIFF_MS]
  have hall : clusterArticles 0 [artDupA, artDupB]
      = [⟨[(1 : ℝ), 0], [artDupA, artDupB], 0⟩] := by
    simp only [clusterArticles, List.filter]
    rw [show (artDupA.embedding.isSome) = true by simp [artDupA],
      show (artDupB.embedding.isSome) = true by simp [artDupB]]
    simp only [List.foldl_cons, List.foldl_nil, h1, h2]
  rw [hall]
  refine ⟨by simp, rfl, by norm_num, by simp, by simp⟩

/-- C3 (amended): the initial load returns at most 50 rows, each
unclustered and newer than 72 hours, in table order (the statement has no
ORDER BY, so no pubDate sorting is guaranteed). -/
theorem select_unclustered_amended (now : ℤ) (rows : List ArticleRow) :
    (selectUnclustered now rows).length ≤ 50 ∧
    (∀ r ∈ selectUnclustered now rows,
       r.cluster_id = none ∧ now - 259200000 < r.pub_date) ∧
    (selectUnclustered now rows).Sublist rows := by
  unfold selectUnclustered
  refine ⟨List.length_take_le _ _, ?_, (List.take_sublist _ _).trans (List.filter_sublist _)⟩
  intro r hr
  have hmem := List.mem_filter.mp (List.mem_of_mem_take hr)
  have hcond := hmem.2
  rw [Bool.and_eq_true] at hcond
  exact ⟨by simpa using hcond.1, of_decide_eq_true hcond.2⟩

/-- Counterexample to C3 as stated: with the table holding the newer row
first, the load returns pubDates `[100, 50]` — not sorted oldest first, so
the clusterer is not fed ascending pubDates. -/
theorem select_unclustered_counterexample :
    (selectUnclustered 259200000 rowsC3).map (fun r => r.pub_date) = [100, 50] ∧
    ¬ List.Sorted (· ≤ ·)
        ((selectUnclustered 259200000 rowsC3).map (fun r => r.pub_date)) := by
  have h : (selectUnclustered 259200000 rowsC3).map (fun r => r.pub_date) = [100, 50] := rfl
  refine ⟨h, ?_⟩
  rw [h]
  intro hs
  have := List.rel_of_sorted_cons hs 50 (List.mem_singleton.mpr rfl)
  omega

/-- Witness for C3 (amended) at the concrete table. -/
theorem select_unclustered_amended_witness :
    (selectUnclustered 259200000 rowsC3).length ≤ 50 :=
  (select_unclustered_amended 259200000 rowsC3).1

/-- C5 (amended): for a nonempty cluster the fallback label (first
member's headline and summary, category "General") is produced exactly
when the call or the parse throws; a successfully parsed response is used
as-is — its `headline`/`summary`/`category` properties are read off the
spread value with no schema validation. -/
theorem labeler_fallback_paths (c : MicroCluster) (first : Article)
    (rest : List Article) (hc : c.articles = first :: rest) :
    processCluster c .transport = some ⟨fallbackLabel first, c.articles⟩ ∧
    processCluster c .parseFail = some ⟨fallbackLabel first, c.articles⟩ ∧
    ∀ j, processCluster c (.parsed j)
      = some ⟨{ headline := jsGet j "headline", summary := jsGet j "summary",
                category := jsGet j "category" }, c.articles⟩ := by
  unfold processCluster
  rw [hc]
  exact ⟨rfl, rfl, fun j => rfl⟩

/-- Witness for C5 (amended): the transport-failure path at a concrete
cluster. -/
theorem labeler_fallback_paths_witness :
    processCluster mcC5 .transport = some ⟨fallbackLabel artC5, mcC5.articles⟩ :=
  (labeler_fallback_paths mcC5 artC5 [] rfl).1

/-- Counterexample to C5 as stated: a schema-mismatched but successfully
parsed response (the empty JSON object, e.g. from an empty response text)
does *not* produce the fallback label — every label field comes back
absent instead. -/
theorem labeler_schema_counterexample :
    processCluster mcC5 (.parsed (.obj [])) = some ⟨⟨none, none, none⟩, [artC5]⟩ ∧
    processCluster mcC5 (.parsed (.obj [])) ≠ some ⟨fallbackLabel artC5, [artC5]⟩ := by
  refine ⟨rfl, ?_⟩
  intro h
  simp [processCluster, mcC5, fallbackLabel, artC5, jsGet] at h

/-- C6 (amended): the labeler is called exactly once per cluster — the
result depends only on the first attempt's outcome, and a transport
failure on that single attempt immediately yields the fallback label
(there is no retry and no backoff). -/
theorem labeler_no_retry (c : MicroCluster) (oracle oracle2 : ℕ → CallOutcome)
    (hsame : oracle2 0 = oracle 0) (h0 : oracle 0 = .transport)
    (first : Article) (rest : List Article) (hc : c.articles = first :: rest) :
    processClusterCall c oracle = some ⟨fallbackLabel first, c.articles⟩ ∧
    processClusterCall c oracle2 = processClusterCall c oracle := by
  unfold processClusterCall
  rw [hsame, h0]
  unfold processCluster
  rw [hc]
  exact ⟨rfl, rfl⟩

/-- Counterexample to C6 as stated: under an oracle that recovers on the
second attempt, the source still returns the fallback label, while the
spec's 3-try retry would have returned the recovered label. -/
theorem labeler_no_retry_counterexample :
    processClusterCall mcC5 oracleC6 = some ⟨fallbackLabel artC5, [artC5]⟩ ∧
    processCluster mcC5 (specRetryOutcome oracleC6)
      = some ⟨⟨some (.str "G"), some (.str "g"), some (.str "Politics")⟩, [artC5]⟩ ∧
    fallbackLabel artC5 ≠ ⟨some (.str "G"), some (.str "g"), some (.str "Politics")⟩ := by
  refine ⟨rfl, rfl, ?_⟩
  intro h
  simp [fallbackLabel, artC5] at h

/-- Witness for C6 (amended) at concrete oracles agreeing on attempt 0. -/
theorem labeler_no_retry_witness :
    processClusterCall mcC5 oracleAllFail = some ⟨fallbackLabel artC5, mcC5.articles⟩ ∧
    processClusterCall mcC5 oracleC6 = processClusterCall mcC5 oracleAllFail :=
  ⟨(labeler_no_retry mcC5 oracleAllFail oracleC6 rfl rfl artC5 [] rfl).1,
   (labeler_no_retry mcC5 oracleAllFail oracleC6 rfl rfl artC5 [] rfl).2⟩

lemma splitStep_clusters_id (g : ℕ → String) (now : ℤ) (d : DB) (p : ℕ × LabeledCluster) :
    (splitStep g now d p).clusters.map (fun c => c.id)
      = d.clusters.map (fun c => c.id) ++ [g p.1] := by
  simp [splitStep]

lemma split_fold_clusters (g : ℕ → String) (now : ℤ) :
    ∀ (ps : List (ℕ × LabeledCluster)) (d : DB),
      ((ps.foldl (splitStep g now) d).clusters).map (fun c => c.id)
        = d.clusters.map (fun c => c.id) ++ ps.map (fun p => g p.1) := by
  intro ps
  induction ps with
  | nil => intro d; simp
  | cons p rest ih =>
    intro d
    rw [List.foldl_cons, ih, splitStep_clusters_id, List.map_cons, List.append_assoc]
    rfl

lemma splitStep_article_id (g : ℕ → String) (p : ℕ × LabeledCluster) (a : ArticleRow) :
    ((if (p.2.articles.map (fun x => x.id)).contains a.id
        then { a with cluster_id := some (g p.1) } else a) : ArticleRow).id = a.id := by
  by_cases h : (p.2.articles.map (fun x => x.id)).contains a.id = true
  · rw [if_pos h]
  · rw [if_neg h]

lemma split_fold_articles (g : ℕ → String) (now : ℤ) :
    ∀ (ps : List (ℕ × LabeledCluster)) (d : DB),
      (ps.foldl (splitStep g now) d).articles
        = d.articles.map (fun a =>
            match lastAssign g a.id ps with
            | some nid => { a with cluster_id := some nid }
            | none => a) := by
  intro ps
  induction ps with
  | nil =>
    intro d
    simp [lastAssign]
  | cons p rest ih =>
    intro d
    rw [List.foldl_cons, ih]
    show (splitStep g now d p).articles.map _ = _
    have hstep : (splitStep g now d p).articles
        = d.articles.map (fun a =>
            if (p.2.articles.map (fun x => x.id)).contains a.id
            then { a with cluster_id := some (g p.1) } else a) := rfl
    rw [hstep, List.map_map]
    apply List.map_congr_left
    intro a _
    show (match lastAssign g
        ((if (p.2.articles.map (fun x => x.id)).contains a.id
           then ({ a with cluster_id := some (g p.1) } : ArticleRow) else a)).id rest with
      | some nid =>
        { (if (p.2.articles.map (fun x => x.id)).contains a.id
            then ({ a with cluster_id := some (g p.1) } : ArticleRow) else a) with
          cluster_id := some nid }
      | none =>
        (if (p.2.articles.map (fun x => x.id)).contains a.id
          then ({ a with cluster_id := some (g p.1) } : ArticleRow) else a))
      = (match lastAssign g a.id (p :: rest) with
         | some nid => ({ a with cluster_id := some nid } : ArticleRow)
         | none => a)
    rw [splitStep_article_id g p a]
    cases hrest : lastAssign g a.id rest with
    | some nid =>
      have hcons : lastAssign g a.id (p :: rest) = some nid := by
        rw [lastAssign, hrest]
      rw [hcons]
      by_cases hc : (p.2.articles.map (fun x => x.id)).contains a.id = true
      · rw [if_pos hc]
      · rw [if_neg hc]
    | none =>
      by_cases hc : (p.2.articles.map (fun x => x.id)).contains a.id = true
      · have hcons : lastAssign g a.id (p :: rest) = some (g p.1) := by
          rw [lastAssign, hrest]
          exact if_pos hc
        rw [hcons, if_pos hc]
      · have hcons : lastAssign g a.id (p :: rest) = none := by
          rw [lastAssign, hrest]
          exact if_neg hc
        rw [hcons, if_neg hc]

/-- C4 (amended): the split transaction performs no existence check on the
old cluster: even when no cluster with `oldId` exists, the deletion is
merely a no-op and the transaction still inserts every replacement
cluster and reassigns the member articles (each article's `cluster_id`
being set by the last sub-cluster listing its id). -/
theorem split_no_existence_check (newIdGen : ℕ → String) (now : ℤ) (db : DB)
    (oldId : String) (subs : List LabeledCluster)
    (habsent : ∀ c ∈ db.clusters, c.id ≠ oldId) :
    ((splitTransaction newIdGen now db oldId subs).clusters.map (fun c => c.id)
      = db.clusters.map (fun c => c.id)
        ++ (withIdx subs 0).map (fun p => newIdGen p.1)) ∧
    ((splitTransaction newIdGen now db oldId subs).articles
      = db.articles.map (fun a =>
          match lastAssign newIdGen a.id (withIdx subs 0) with
          | some nid => { a with cluster_id := some nid }
          | none => a)) := by
  have hfil : db.clusters.filter (fun c => !(c.id == oldId)) = db.clusters := by
    apply List.filter_eq_self.mpr
    intro c hc
    simpa using habsent c hc
  unfold splitTransaction
  constructor
  · rw [split_fold_clusters]
    show (db.clusters.filter (fun c => !(c.id == oldId))).map _ ++ _ = _
    rw [hfil]
  · rw [split_fold_articles]

/-- Counterexample to C4 as stated: with the old cluster absent, the
transaction is *not* aborted — the replacement cluster is inserted and the
article is reassigned anyway. -/
theorem split_counterexample :
    dbC4.clusters = [] ∧
    (splitTransaction idGen 0 dbC4 "old" [subC4]).clusters.map (fun c => c.id)
      = ["split-0"] ∧
    (splitTransaction idGen 0 dbC4 "old" [subC4]).articles.map (fun a => a.cluster_id)
      = [some "split-0"] :=
  ⟨rfl, rfl, rfl⟩

/-- Witness for C4 (amended) at the concrete database without the old
cluster. -/
theorem split_no_existence_check_witness :
    (splitTransaction idGen 0 dbC4 "old" [subC4]).clusters.map (fun c => c.id)
      = dbC4.clusters.map (fun c => c.id)
        ++ (withIdx [subC4] 0).map (fun p => idGen p.1) :=
  (split_no_existence_check idGen 0 dbC4 "old" [subC4]
    (fun c hc => by simp [dbC4] at hc)).1

lemma scanLoop_scanned_low (t : ℤ) (vec : List ℝ) (a : Article) :
    ∀ (cs : List MicroCluster) (ms : ℝ) (bi : Option ℕ) (i : ℕ),
      (∀ c ∈ cs, (t - c.latestTime).natAbs ≤ MAX_TIME_DIFF_MS) →
      (∀ c ∈ cs, dupMatch a vec c = false) →
      (∀ c ∈ cs, cosineSimilarity (some vec) (some c.centroid) < CLUSTERING_THRESHOLD) →
      ms < CLUSTERING_THRESHOLD →
      ∃ ms2 bi2, scanLoop t vec a cs ms bi i = .scanned ms2 bi2 ∧
        ms2 < CLUSTERING_THRESHOLD := by
  intro cs
  induction cs with
  | nil =>
    intro ms bi i _ _ _ hms
    exact ⟨ms, bi, rfl, hms⟩
  | cons c rest ih =>
    intro ms bi i hwin hdup hsim hms
    rw [scanLoop, if_neg (not_lt.mpr (hwin c (List.mem_cons_self _ _)))]
    simp only [hdup c (List.mem_cons_self _ _), Bool.false_eq_true, if_false]
    by_cases hlt : ms < cosineSimilarity (some vec) (some c.centroid)
    · rw [if_pos hlt]
      obtain ⟨ms2, bi2, heq, h2⟩ := ih _ (some i) (i + 1)
        (fun x hx => hwin x (List.mem_cons_of_mem _ hx))
        (fun x hx => hdup x (List.mem_cons_of_mem _ hx))
        (fun x hx => hsim x (List.mem_cons_of_mem _ hx))
        (hsim c (List.mem_cons_self _ _))
      exact ⟨ms2, bi2, by rw [heq]; rfl, h2⟩
    · rw [if_neg hlt]
      obtain ⟨ms2, bi2, heq, h2⟩ := ih ms bi (i + 1)
        (fun x hx => hwin x (List.mem_cons_of_mem _ hx))
        (fun x hx => hdup x (List.mem_cons_of_mem _ hx))
        (fun x hx => hsim x (List.mem_cons_of_mem _ hx))
        hms
      exact ⟨ms2, bi2, by rw [heq]; rfl, h2⟩

lemma processArticle_append (now : ℤ) (cs : List MicroCluster) (a : Article)
    (hwin : ∀ c ∈ cs, (a.pubDate.getD now - c.latestTime).natAbs ≤ MAX_TIME_DIFF_MS)
    (hdup : ∀ c ∈ cs, dupMatch a (a.embedding.getD []) c = false)
    (hsim : ∀ c ∈ cs,
      cosineSimilarity (some (a.embedding.getD [])) (some c.centroid)
        < CLUSTERING_THRESHOLD) :
    processArticle now cs a
      = cs ++ [⟨a.embedding.getD [], [a], a.pubDate.getD now⟩] := by
  simp only [processArticle]
  obtain ⟨ms2, bi2, heq, hlow⟩ := scanLoop_scanned_low _ _ a cs (-1) none 0
    hwin hdup hsim (by unfold CLUSTERING_THRESHOLD; norm_num)
  rw [heq]
  exact if_neg (not_le.mpr hlow)

lemma dup_single_false (a m : Article) (cen vec : List ℝ) (lt : ℤ)
    (hhl : (m.headline.toLower.trim == a.headline.toLower.trim) = false)
    (hcos : ¬ (DUPLICATE_THRESHOLD ≤ cosineSimilarity (some vec) m.embedding)) :
    dupMatch a vec ⟨cen, [m], lt⟩ = false := by
  simp [dupMatch, hhl, decide_eq_false hcos]

lemma cos_m10_10 : cosineSimilarity (some [(-1 : ℝ), 0]) (some [(1 : ℝ), 0]) = -1 := by
  norm_num [cosineSimilarity, dotList, sumSq, jsOr1]

lemma cos_01_10 : cosineSimilarity (some [(0 : ℝ), 1]) (some [(1 : ℝ), 0]) = 0 := by
  norm_num [cosineSimilarity, dotList, sumSq, jsOr1]

lemma cos_01_m10 : cosineSimilarity (some [(0 : ℝ), 1]) (some [(-1 : ℝ), 0]) = 0 := by
  norm_num [cosineSimilarity, dotList, sumSq, jsOr1]

lemma cos_0m1_10 : cosineSimilarity (some [(0 : ℝ), -1]) (some [(1 : ℝ), 0]) = 0 := by
  norm_num [cosineSimilarity, dotList, sumSq, jsOr1]

lemma cos_0m1_m10 : cosineSimilarity (some [(0 : ℝ), -1]) (some [(-1 : ℝ), 0]) = 0 := by
  norm_num [cosineSimilarity, dotList, sumSq, jsOr1]

lemma cos_0m1_01 : cosineSimilarity (some [(0 : ℝ), -1]) (some [(0 : ℝ), 1]) = -1 := by
  norm_num [cosineSimilarity, dotList, sumSq, jsOr1]

lemma cos_zero_right (x y : ℝ) :
    cosineSimilarity (some [x, y]) (some [(0 : ℝ), 0]) = 0 := by
  simp [cosineSimilarity, dotList]

/-- Evaluate `s.toLowerCase().trim()` on a concrete whitespace-free
lowercase string (the `trim` auxiliaries use well-founded recursion, so
one unfolding step of each is rewritten explicitly). -/
lemma normHl_eval (s : String)
    (hl : String.map Char.toLower s = s)
    (ht : (s.toSubstring.trim).toString = s) : s.toLower.trim = s := by
  show (String.map Char.toLower s).trim = s
  rw [hl]
  exact ht

lemma normHl_h1 : ("h1" : String).toLower.trim = "h1" :=
  normHl_eval "h1" (by rw [String.map_eq]; decide) (by
    unfold Substring.trim
    unfold Substring.takeWhileAux
    unfold Substring.takeRightWhileAux
    norm_num [String.toSubstring]
    decide)

lemma normHl_h2 : ("h2" : String).toLower.trim = "h2" :=
  normHl_eval "h2" (by rw [String.map_eq]; decide) (by
    unfold Substring.trim
    unfold Substring.takeWhileAux
    unfold Substring.takeRightWhileAux
    norm_num [String.toSubstring]
    decide)

lemma normHl_h3 : ("h3" : String).toLower.trim = "h3" :=
  normHl_eval "h3" (by rw [String.map_eq]; decide) (by
    unfold Substring.trim
    unfold Substring.takeWhileAux
    unfold Substring.takeRightWhileAux
    norm_num [String.toSubstring]
    decide)

lemma normHl_h4 : ("h4" : String).toLower.trim = "h4" :=
  normHl_eval "h4" (by rw [String.map_eq]; decide) (by
    unfold Substring.trim
    unfold Substring.takeWhileAux
    unfold Substring.takeRightWhileAux
    norm_num [String.toSubstring]
    decide)

lemma c1_cluster_step1 : processArticle 100000000 [] artA1 = [mc1] :=
  processArticle_append 100000000 [] artA1 (by simp) (by simp) (by simp)

lemma c1_nodup_thr : ¬ (DUPLICATE_THRESHOLD ≤ (-1 : ℝ)) := by
  unfold DUPLICATE_THRESHOLD
  norm_num

lemma c1_nodup_thr0 : ¬ (DUPLICATE_THRESHOLD ≤ (0 : ℝ)) := by
  unfold DUPLICATE_THRESHOLD
  norm_num

lemma c1_sim_thr : (-1 : ℝ) < CLUSTERING_THRESHOLD ∧ (0 : ℝ) < CLUSTERING_THRESHOLD := by
  unfold CLUSTERING_THRESHOLD
  norm_num

lemma c1_cluster_step2 : processArticle 100000000 [mc1] artA2 = [mc1, mc2] := by
  have h := processArticle_append 100000000 [mc1] artA2
    (by intro c hc; rw [List.mem_singleton] at hc; subst hc; decide)
    (by
      intro c hc
      rw [List.mem_singleton] at hc
      subst hc
      exact dup_single_false artA2 artA1 _ _ _
        (by
          show (("h1" : String).toLower.trim == ("h2" : String).toLower.trim) = false
          rw [normHl_h1, normHl_h2]
          decide)
        (by
          show ¬ (DUPLICATE_THRESHOLD
            ≤ cosineSimilarity (some [(-1 : ℝ), 0]) (some [(1 : ℝ), 0]))
          rw [cos_m10_10]
          exact c1_nodup_thr))
    (by
      intro c hc
      rw [List.mem_singleton] at hc
      subst hc
      show cosineSimilarity (some [(-1 : ℝ), 0]) (some [(1 : ℝ), 0]) < _
      rw [cos_m10_10]
      exact c1_sim_thr.1)
  exact h

lemma c1_cluster_step3 : processArticle 100000000 [mc1, mc2] artA3 = [mc1, mc2, mc3] := by
  have h := processArticle_append 100000000 [mc1, mc2] artA3
    (by
      intro c hc
      rcases List.mem_cons.mp hc with h1 | h1
      · subst h1; decide
      · rw [List.mem_singleton] at h1; subst h1; decide)
    (by
      intro c hc
      rcases List.mem_cons.mp hc with h1 | h1
      · subst h1
        exact dup_single_false artA3 artA1 _ _ _
          (by
            show (("h1" : String).toLower.trim == ("h3" : String).toLower.trim) = false
            rw [normHl_h1, normHl_h3]
            decide)
          (by
            show ¬ (DUPLICATE_THRESHOLD
              ≤ cosineSimilarity (some [(0 : ℝ), 1]) (some [(1 : ℝ), 0]))
            rw [cos_01_10]
            exact c1_nodup_thr0)
      · rw [List.mem_singleton] at h1; subst h1
        exact dup_single_false artA3 artA2 _ _ _
          (by
            show (("h2" : String).toLower.trim == ("h3" : String).toLower.trim) = false
            rw [normHl_h2, normHl_h3]
            decide)
          (by
            show ¬ (DUPLICATE_THRESHOLD
              ≤ cosineSimilarity (some [(0 : ℝ), 1]) (some [(-1 : ℝ), 0]))
            rw [cos_01_m10]
            exact c1_nodup_thr0))
    (by
      intro c hc
      rcases List.mem_cons.mp hc with h1 | h1
      · subst h1
        show cosineSimilarity (some [(0 : ℝ), 1]) (some [(1 : ℝ), 0]) < _
        rw [cos_01_10]
        exact c1_sim_thr.2
      · rw [List.mem_singleton] at h1; subst h1
        show cosineSimilarity (some [(0 : ℝ), 1]) (some [(-1 : ℝ), 0]) < _
        rw [cos_01_m10]
        exact c1_sim_thr.2)
  exact h

lemma c1_cluster_step4 :
    processArticle 100000000 [mc1, mc2, mc3] artA4 = [mc1, mc2, mc3, mc4] := by
  have h := processArticle_append 100000000 [mc1, mc2, mc3] artA4
    (by
      intro c hc
      rcases List.mem_cons.mp hc with h1 | h1
      · subst h1; decide
      rcases List.mem_cons.mp h1 with h2 | h2
      · subst h2; decide
      · rw [List.mem_singleton] at h2; subst h2; decide)
    (by
      intro c hc
      rcases List.mem_cons.mp hc with h1 | h1
      · subst h1
        exact dup_single_false artA4 artA1 _ _ _
          (by
            show (("h1" : String).toLower.trim == ("h4" : String).toLower.trim) = false
            rw [normHl_h1, normHl_h4]
            decide)
          (by
            show ¬ (DUPLICATE_THRESHOLD
              ≤ cosineSimilarity (some [(0 : ℝ), -1]) (some [(1 : ℝ), 0]))
            rw [cos_0m1_10]
            exact c1_nodup_thr0)
      rcases List.mem_cons.mp h1 with h2 | h2
      · subst h2
        exact dup_single_false artA4 artA2 _ _ _
          (by
            show (("h2" : String).toLower.trim == ("h4" : String).toLower.trim) = false
            rw [normHl_h2, normHl_h4]
            decide)
          (by
            show ¬ (DUPLICATE_THRESHOLD
              ≤ cosineSimilarity (some [(0 : ℝ), -1]) (some [(-1 : ℝ), 0]))
            rw [cos_0m1_m10]
            exact c1_nodup_thr0)
      · rw [List.mem_singleton] at h2; subst h2
        exact dup_single_false artA4 artA3 _ _ _
          (by
            show (("h3" : String).toLower.trim == ("h4" : String).toLower.trim) = false
            rw [normHl_h3, normHl_h4]
            decide)
          (by
            show ¬ (DUPLICATE_THRESHOLD
              ≤ cosineSimilarity (some [(0 : ℝ), -1]) (some [(0 : ℝ), 1]))
            rw [cos_0m1_01]
            exact c1_nodup_thr))
    (by
      intro c hc
      rcases List.mem_cons.mp hc with h1 | h1
      · subst h1
        show cosineSimilarity (some [(0 : ℝ), -1]) (some [(1 : ℝ), 0]) < _
        rw [cos_0m1_10]
        exact c1_sim_thr.2
      rcases List.mem_cons.mp h1 with h2 | h2
      · subst h2
        show cosineSimilarity (some [(0 : ℝ), -1]) (some [(-1 : ℝ), 0]) < _
        rw [cos_0m1_m10]
        exact c1_sim_thr.2
      · rw [List.mem_singleton] at h2; subst h2
        show cosineSimilarity (some [(0 : ℝ), -1]) (some [(0 : ℝ), 1]) < _
        rw [cos_0m1_01]
        exact c1_sim_thr.1)
  exact h

lemma c1_clustered :
    clusterArticles 100000000 [artA1, artA2, artA3, artA4] = [mc1, mc2, mc3, mc4] := by
  have hfil : [artA1, artA2, artA3, artA4].filter (fun a => a.embedding.isSome)
      = [artA1, artA2, artA3, artA4] := rfl
  unfold clusterArticles
  rw [hfil]
  rw [List.foldl_cons, c1_cluster_step1, List.foldl_cons, c1_cluster_step2,
    List.foldl_cons, c1_cluster_step3, List.foldl_cons, c1_cluster_step4,
    List.foldl_nil]

lemma c1_refineOne : refineOne idGen oracleAllFail 100000000 dbC1 oldCluster
    = splitTransaction idGen 100000000 dbC1 oldCluster.id
        (generateLabels oracleAllFail [mc1, mc2, mc3, mc4]) := by
  have hraw : dbC1.articles.filter (fun a => a.cluster_id == some oldCluster.id)
      = rowsC1 := rfl
  have hparse : rowsC1.filterMap parseRowEmb = [artA1, artA2, artA3, artA4] := rfl
  have hfold : List.foldl (fun c a => weightedVectorAdd c (a.embedding.getD []) 1 1)
      (List.replicate 2 0) [artA1, artA2, artA3, artA4] = [(0 : ℝ), 0] := by
    norm_num [artA1, artA2, artA3, artA4, weightedVectorAdd, List.replicate]
  have hcent : normalizeVector [(0 : ℝ), 0] = [(0 : ℝ), 0] := by
    simp [normalizeVector, sumSq, jsOr1]
  have hmap : List.map (fun a => cosineSimilarity a.embedding (some [(0 : ℝ), 0]))
      [artA1, artA2, artA3, artA4] = [0, 0, 0, 0] := by
    simp [artA1, artA2, artA3, artA4, cos_zero_right]
  have hcoh : ([(0 : ℝ), 0, 0, 0].sum / ((4 : ℕ) : ℝ)) < COHERENCE_THRESHOLD := by
    norm_num [COHERENCE_THRESHOLD]
  simp only [refineOne]
  rw [hraw, hparse]
  rw [if_neg (show ¬ (rowsC1.length < 4) by decide)]
  rw [if_neg (show ¬ (([artA1, artA2, artA3, artA4] : List Article).length < 4) by decide)]
  rw [show (([artA1, artA2, artA3, artA4] : List Article).headI.embedding.getD []).length
      = 2 from rfl]
  rw [hfold, hcent, hmap]
  rw [show (([artA1, artA2, artA3, artA4] : List Article).length) = 4 from rfl]
  rw [if_pos hcoh]
  rw [c1_clustered]
  rw [if_pos (show 1 < ([mc1, mc2, mc3, mc4] : List MicroCluster).length by decide)]

/-- C1: evaluating the refiner on a recent incoherent cluster of five
members, one of which has an unparseable stored embedding, shows the
split deleting cluster "old" and reassigning only the four parseable
members — the fifth member keeps `cluster_id = "old"`, which no longer
references any existing cluster (an observable orphan after the
transaction commits, contradicting the invariant). -/
theorem refiner_split_orphans_unparseable :
    ((refineClusters idGen oracleAllFail 100000000 dbC1).clusters.map (fun c => c.id)
      = ["split-0", "split-1", "split-2", "split-3"]) ∧
    ((refineClusters idGen oracleAllFail 100000000 dbC1).articles.map
        (fun a => (a.id, a.cluster_id))
      = [("a1", some "split-0"), ("a2", some "split-1"), ("a3", some "split-2"),
         ("a4", some "split-3"), ("a5", some "old")]) := by
  have hsel : dbC1.clusters.filter
      (fun c => decide ((100000000 : ℤ) - 86400000 < c.created_at)) = [oldCluster] := rfl
  have hstart : refineClusters idGen oracleAllFail 100000000 dbC1
      = refineOne idGen oracleAllFail 100000000 dbC1 oldCluster := by
    unfold refineClusters
    rw [hsel]
    rfl
  rw [hstart, c1_refineOne]
  constructor <;> rfl

/-- Witness for C7 at the spec's scenario 4 (7 Left, 1 Center, 2 Center Right). -/
theorem stats_formulas_witness :
    arts10 ≠ [] ∧
    (statsOf arts10).totalSources = arts10.length ∧
    ((statsOf arts10).blindspot = "None"
      ↔ ¬((statsOf arts10).right < 15 ∧ 50 < (statsOf arts10).left) ∧
        ¬((statsOf arts10).left < 15 ∧ 50 < (statsOf arts10).right)) :=
  ⟨List.cons_ne_nil _ _, (stats_formulas arts10 (List.cons_ne_nil _ _)).1,
   (stats_formulas arts10 (List.cons_ne_nil _ _)).2.2.2.2.2.2.2.2.2.2⟩
